import Mathlib

/-
Verification of the Block-dvpn backend (backend/app.py).

The file embeds the two Flask handlers, `verify_subscription`
(POST /verify-subscription) and `get_node_details` (GET /api/nodes/<address>),
as pure Lean functions. External effects are passed in explicitly:

 * the JSON body of a POST request is an `Option` association list
   (`none` models a request whose body `request.get_json()` fails to
   produce a dict from — absent body, unparsable body, or wrong content
   type — in which case the handler's catch-all `except` clause answers
   with status 500 and the exception's description);
 * the on-chain `hasActiveSubscription(...).call()` is an oracle
   `JVal → CallOutcome` giving, per argument, either the returned boolean
   or the description of the raised error;
 * the sqlite layer is a `DbWorld`: three fault flags (does
   `sqlite3.connect`, `cursor.execute`, `cursor.fetchone` succeed?) plus
   the rows of the `pending_nodes` table in their scan order, and the
   handler's embedding additionally reports whether the connection was
   opened and whether `conn.close()` was reached.
-/

namespace BlockDvpn

/-- Scalar JSON values as decoded by `request.get_json()` into a Python
dict. The claims under study only involve scalar values (strings, numbers,
booleans, null) or an absent key, so compound values are not represented. -/
inductive JVal where
  | str (s : String)
  | num (n : Int)
  | bool (b : Bool)
  | null
deriving DecidableEq, Repr

/-- Python truthiness of a decoded JSON value, as tested by
`if not eth_address:` in the handler. -/
def JVal.truthy : JVal → Bool
  | .str s => !(s == "")
  | .num n => !(n == 0)
  | .bool b => b
  | .null => false

/-- Body of a `/verify-subscription` JSON response: either
`{"status": "active"}` or `{"error": msg}`. -/
inductive VBody where
  | active
  | error (msg : String)
deriving DecidableEq, Repr

/-- Observable outcome of the `hasActiveSubscription(addr).call()` view
call: the boolean it returns, or the description of the exception it
raises (transport failure, revert, argument-encoding failure, ...). -/
inductive CallOutcome where
  | ok (b : Bool)
  | err (msg : String)
deriving DecidableEq, Repr

/-- Result of one run of the `verify_subscription` handler: HTTP status,
JSON body, and the argument that was passed to `hasActiveSubscription`
(`none` when the contract call was never made). -/
structure VExec where
  status : Nat
  body : VBody
  callArg : Option JVal
deriving DecidableEq, Repr

/-- Embedding of the `verify_subscription` handler of backend/app.py.
`body?` is the decoded JSON body (`none` when `request.get_json()` raises
or yields no dict, which the catch-all turns into a 500 carrying the
exception's description `jsonFailMsg`); `call` is the contract-call
oracle. The handler reads `data.get('eth_address')`, answers 400 on a
missing or falsy value, and otherwise forwards the value — exactly as
submitted — to the contract call, mapping `True` to 200/active, `False`
to 401/"No active subscription", and a raised error to 500 with its
description. -/
def verify_subscription (body? : Option (List (String × JVal)))
    (call : JVal → CallOutcome) (jsonFailMsg : String) : VExec :=
  match body? with
  | none => ⟨500, .error jsonFailMsg, none⟩
  | some data =>
    match data.lookup "eth_address" with
    | none => ⟨400, .error "eth_address is required", none⟩
    | some v =>
      if v.truthy then
        match call v with
        | .ok true => ⟨200, .active, some v⟩
        | .ok false => ⟨401, .error "No active subscription", some v⟩
        | .err m => ⟨500, .error m, some v⟩
      else ⟨400, .error "eth_address is required", none⟩

/-- One row of the `pending_nodes` sqlite table, with the columns the
handler touches. -/
structure NodeRecord where
  address : String
  friendly_name : String
  country : String
  status : String
deriving DecidableEq, Repr

/-- State of the storage layer for one `get_node_details` run: whether
`sqlite3.connect`, `cursor.execute` and `cursor.fetchone` succeed, and
the rows of `pending_nodes` in table-scan order. -/
structure DbWorld where
  connectOk : Bool
  executeOk : Bool
  fetchOk : Bool
  records : List NodeRecord
deriving DecidableEq, Repr

/-- ASCII lower-casing of a string, character by character — the case
folding performed by sqlite's default `LOWER`. (Stated over the
character list so that it computes by structural recursion.) -/
def strLower (s : String) : String := ⟨s.data.map Char.toLower⟩

/-- Case-insensitive string comparison, embedding sqlite's
`LOWER(x) = LOWER(y)`. -/
def lowerEq (a b : String) : Bool := strLower a == strLower b

/-- The WHERE clause of the handler's query:
`LOWER(address) = LOWER(?) AND status = 'approved'`. The address
comparison is case-insensitive; the status comparison is sqlite's
default binary (case-sensitive) equality. -/
def approvedMatch (address : String) (r : NodeRecord) : Bool :=
  lowerEq r.address address && r.status == "approved"

/-- `cursor.fetchone()` on the handler's query: the first row of the
table satisfying the WHERE clause, projected to
`(friendly_name, country)`, or `none` when no row matches. -/
def queryResult (address : String) (records : List NodeRecord) :
    Option (String × String) :=
  (records.filter (approvedMatch address)).head?.map
    fun r => (r.friendly_name, r.country)

/-- A `/api/nodes/<address>` response: HTTP status and the two fields of
the JSON body. Both branches of the handler (and its catch-all) produce
a body of this shape. -/
structure NodeResp where
  status : Nat
  friendly_name : String
  country : String
deriving DecidableEq, Repr

/-- The fallback response body, `{"friendly_name": "Hold on there",
"country": "Hold on there"}`, served with the default 200 status. -/
def placeholderResp : NodeResp := ⟨200, "Hold on there", "Hold on there"⟩

/-- Result of one run of the `get_node_details` handler: the response,
whether a storage connection was opened, and whether `conn.close()` was
executed before the response was returned. -/
structure NodeExec where
  resp : NodeResp
  connOpened : Bool
  connClosed : Bool
deriving DecidableEq, Repr

/-- Embedding of the `get_node_details` handler of backend/app.py. If
`sqlite3.connect` raises, the catch-all answers the placeholder with no
connection ever opened. If `cursor.execute` or `cursor.fetchone` raises,
control jumps to the catch-all — past the `conn.close()` line, which the
handler only reaches on the no-exception path — and the placeholder is
returned with the connection still open. Otherwise `conn.close()` runs
and the response is the found row or the placeholder. Every response is
served with Flask's default status 200. -/
def get_node_details (address : String) (w : DbWorld) : NodeExec :=
  if !w.connectOk then
    ⟨placeholderResp, false, false⟩
  else if !w.executeOk || !w.fetchOk then
    ⟨placeholderResp, true, false⟩
  else
    match queryResult address w.records with
    | some (n, c) => ⟨⟨200, n, c⟩, true, true⟩
    | none => ⟨placeholderResp, true, true⟩

/-- When the body parses and `eth_address` holds a truthy value, the
handler's answer is determined by the contract-call outcome on that very
value, and the value is forwarded unchanged. -/
lemma verify_subscription_with_arg (data : List (String × JVal))
    (call : JVal → CallOutcome) (m : String) (v : JVal)
    (h1 : data.lookup "eth_address" = some v) (h2 : v.truthy = true) :
    verify_subscription (some data) call m =
      match call v with
      | .ok true => ⟨200, .active, some v⟩
      | .ok false => ⟨401, .error "No active subscription", some v⟩
      | .err em => ⟨500, .error em, some v⟩ := by
  unfold verify_subscription
  simp only [h1, h2, if_true]

/-- When no row satisfies the WHERE clause, the handler's query comes
back empty. -/
lemma queryResult_eq_none (a : String) (rs : List NodeRecord)
    (h : ∀ r ∈ rs, approvedMatch a r = false) :
    queryResult a rs = none := by
  have hfil : rs.filter (approvedMatch a) = [] := by
    rw [List.filter_eq_nil_iff]
    intro r hr
    simp [h r hr]
  unfold queryResult
  rw [hfil]
  rfl

/-- On every run against a table with no matching approved row —
whatever the fault flags — the response is the placeholder. -/
lemma resp_of_no_approved_match (a : String) (w : DbWorld)
    (h : ∀ r ∈ w.records, approvedMatch a r = false) :
    (get_node_details a w).resp = placeholderResp := by
  unfold get_node_details
  split
  · rfl
  · split
    · rfl
    · rw [queryResult_eq_none a w.records h]

/-- The WHERE clause only reads the request address through its
lower-casing. -/
lemma approvedMatch_congr (a b : String) (h : strLower a = strLower b)
    (r : NodeRecord) : approvedMatch a r = approvedMatch b r := by
  unfold approvedMatch lowerEq
  rw [h]

/-- The query result only depends on the request address up to case. -/
lemma queryResult_congr (a b : String) (h : strLower a = strLower b)
    (rs : List NodeRecord) : queryResult a rs = queryResult b rs := by
  unfold queryResult
  rw [funext (approvedMatch_congr a b h)]

/-- Claim C1: for every request whose entitlement check returns `true`
the response is 200 with body `{"status": "active"}`; when it returns
`false` the response is 401 with body `{"error": "No active
subscription"}` and never the 500 server error; when the entitlement
call raises, the response is 500 with a body carrying that error's
description. -/
theorem verify_subscription_entitlement_mapping
    (data : List (String × JVal)) (call : JVal → CallOutcome) (m : String)
    (v : JVal) (h1 : data.lookup "eth_address" = some v)
    (h2 : v.truthy = true) :
    (call v = .ok true →
      verify_subscription (some data) call m = ⟨200, .active, some v⟩) ∧
    (call v = .ok false →
      verify_subscription (some data) call m
          = ⟨401, .error "No active subscription", some v⟩ ∧
        (verify_subscription (some data) call m).status ≠ 500) ∧
    (∀ em, call v = .err em →
      verify_subscription (some data) call m = ⟨500, .error em, some v⟩) := by
  have key := verify_subscription_with_arg data call m v h1 h2
  refine ⟨fun hc => by rw [key, hc],
    fun hc => ⟨by rw [key, hc], by rw [key, hc]; dsimp only; decide⟩,
    fun em hc => by rw [key, hc]⟩

/-- Claim C1, witness: a concrete body whose entitlement check answers
`true` receives the 200/active response. -/
theorem verify_subscription_entitlement_mapping_witness :
    verify_subscription (some [("eth_address", JVal.str "0xabc")])
        (fun _ => CallOutcome.ok true) "boom"
      = ⟨200, .active, some (JVal.str "0xabc")⟩ :=
  (verify_subscription_entitlement_mapping
    [("eth_address", JVal.str "0xabc")] (fun _ => CallOutcome.ok true) "boom"
    (JVal.str "0xabc") (by decide) (by decide)).1 rfl

/-- Claim C2: for every address with no stored record matching it
case-insensitively with status approved, `get_node_details` answers
exactly the placeholder body with status 200. -/
theorem get_node_details_no_match_placeholder (address : String)
    (w : DbWorld) (h : ∀ r ∈ w.records, approvedMatch address r = false) :
    (get_node_details address w).resp = placeholderResp :=
  resp_of_no_approved_match address w h

/-- Claim C2, witness: a table holding only a pending record of another
address yields the placeholder. -/
theorem get_node_details_no_match_placeholder_witness :
    (get_node_details "0xdead"
        ⟨true, true, true, [⟨"0xa", "Alpha", "DE", "pending"⟩]⟩).resp
      = placeholderResp :=
  get_node_details_no_match_placeholder "0xdead"
    ⟨true, true, true, [⟨"0xa", "Alpha", "DE", "pending"⟩]⟩ (by decide)

/-- Claim C3: every run of `get_node_details` — including every run on
which connect, the query, or reading the result raises — responds with
HTTP status 200. -/
theorem get_node_details_always_200 (address : String) (w : DbWorld) :
    (get_node_details address w).resp.status = 200 := by
  unfold get_node_details
  split
  · rfl
  · split
    · rfl
    · split
      · rfl
      · rfl

/-- Claim C4, counterexample: a request carrying no JSON body at all
does not get the 400 "eth_address is required" response — the failing
`request.get_json()` lands in the catch-all, which answers 500 with the
exception's description. -/
theorem verify_subscription_no_body_500 :
    (verify_subscription none (fun _ => CallOutcome.ok true)
        "parse failure").status = 500 ∧
    verify_subscription none (fun _ => CallOutcome.ok true) "parse failure"
      ≠ ⟨400, .error "eth_address is required", none⟩ := by
  decide

/-- Claim C4 as amended: for every request whose JSON body parses to a
dict in which `eth_address` is missing or holds a falsy value, the
response is 400 with body `{"error": "eth_address is required"}`; a
request with no parseable JSON body instead reaches the catch-all and is
answered 500. -/
theorem verify_subscription_absent_or_falsy_field_400
    (data : List (String × JVal)) (call : JVal → CallOutcome) (m : String)
    (h : ∀ v, data.lookup "eth_address" = some v → v.truthy = false) :
    verify_subscription (some data) call m
      = ⟨400, .error "eth_address is required", none⟩ := by
  unfold verify_subscription
  dsimp only
  split
  · rfl
  · rename_i v hv
    simp [h v hv]

/-- Claim C4, witness: a body without the `eth_address` key gets the
400 response. -/
theorem verify_subscription_absent_or_falsy_field_400_witness :
    verify_subscription (some []) (fun _ => CallOutcome.ok true) "boom"
      = ⟨400, .error "eth_address is required", none⟩ :=
  verify_subscription_absent_or_falsy_field_400 []
    (fun _ => CallOutcome.ok true) "boom" (fun _ h => nomatch h)

/-- Claim C5, counterexample: for a mixed-case submitted address the
argument handed to `hasActiveSubscription` is the raw string, which
differs from its case-folded canonical form — the handler applies no
normalization. -/
theorem verify_subscription_arg_not_lowercased :
    (verify_subscription (some [("eth_address", JVal.str "0xAbC")])
        (fun _ => CallOutcome.ok true) "boom").callArg
      = some (JVal.str "0xAbC") ∧
    some (JVal.str "0xAbC") ≠ some (JVal.str (strLower "0xAbC")) := by
  constructor
  · decide
  · decide

/-- Claim C5 as amended: the argument passed to the entitlement check is
the submitted `eth_address` value exactly as given; no case folding or
other normalization is applied before the call. -/
theorem verify_subscription_passes_raw_address
    (data : List (String × JVal)) (call : JVal → CallOutcome) (m : String)
    (v : JVal) (h1 : data.lookup "eth_address" = some v)
    (h2 : v.truthy = true) :
    (verify_subscription (some data) call m).callArg = some v := by
  rw [verify_subscription_with_arg data call m v h1 h2]
  cases hc : call v with
  | ok b => cases b <;> rfl
  | err s => rfl

/-- Claim C5, witness: a concrete truthy address is forwarded verbatim
to the contract call. -/
theorem verify_subscription_passes_raw_address_witness :
    (verify_subscription (some [("eth_address", JVal.str "0xAbC")])
        (fun _ => CallOutcome.ok false) "boom").callArg
      = some (JVal.str "0xAbC") :=
  verify_subscription_passes_raw_address
    [("eth_address", JVal.str "0xAbC")] (fun _ => CallOutcome.ok false)
    "boom" (JVal.str "0xAbC") (by decide) (by decide)

/-- Claim C6: on a run where the connection is opened and the query then
raises, the handler jumps to the catch-all past the `conn.close()` line:
the connection is opened but never released before the placeholder
response is returned — the code leaks the connection on thrown errors,
against the stated requirement. -/
theorem get_node_details_connection_leak_on_query_error :
    (get_node_details "0xabc" ⟨true, false, true, []⟩).connOpened = true ∧
    (get_node_details "0xabc" ⟨true, false, true, []⟩).connClosed = false ∧
    (get_node_details "0xabc" ⟨true, false, true, []⟩).resp
      = placeholderResp := by
  decide

/-- On a run where connect, execute and fetchone all succeed, the
handler's behaviour is the query result followed by a close. -/
lemma get_node_details_ok (a : String) (w : DbWorld)
    (hc : w.connectOk = true) (he : w.executeOk = true)
    (hf : w.fetchOk = true) :
    get_node_details a w =
      match queryResult a w.records with
      | some (n, c) => ⟨⟨200, n, c⟩, true, true⟩
      | none => ⟨placeholderResp, true, true⟩ := by
  unfold get_node_details
  rw [hc, he, hf]
  rfl

/-- Claim C7, counterexample: with two approved records matching the
same address case-insensitively, `fetchone` returns the first row of the
scan, so the claim instantiated at the second stored record fails — its
`friendly_name`/`country` are not the ones returned. -/
theorem get_node_details_duplicate_counterexample :
    ((⟨"0xA", "Beta", "FR", "approved"⟩ : NodeRecord) ∈
        ([⟨"0xa", "Alpha", "DE", "approved"⟩,
          ⟨"0xA", "Beta", "FR", "approved"⟩] : List NodeRecord)) ∧
    strLower "0xA" = strLower "0xa" ∧
    (get_node_details "0xa" ⟨true, true, true,
        [⟨"0xa", "Alpha", "DE", "approved"⟩,
         ⟨"0xA", "Beta", "FR", "approved"⟩]⟩).resp
      ≠ ⟨200, "Beta", "FR"⟩ := by
  refine ⟨by decide, by decide, by decide⟩

/-- Claim C7 as amended: for every stored record `(addr, name, country)`
with status approved that is the first row matching the request path
case-insensitively, and every run on which the storage calls succeed,
`get_node_details` returns `{"friendly_name": name, "country": country}`
with status 200; and the whole response is invariant under changing the
letter casing of the address in the request path. -/
theorem get_node_details_first_approved_match (w : DbWorld) (a b : String)
    (r : NodeRecord) (hc : w.connectOk = true) (he : w.executeOk = true)
    (hf : w.fetchOk = true)
    (hfirst : (w.records.filter (approvedMatch a)).head? = some r)
    (hcase : strLower a = strLower b) :
    (get_node_details a w).resp = ⟨200, r.friendly_name, r.country⟩ ∧
    get_node_details a w = get_node_details b w := by
  have hq : queryResult a w.records = some (r.friendly_name, r.country) := by
    unfold queryResult
    rw [hfirst]
    rfl
  constructor
  · rw [get_node_details_ok a w hc he hf, hq]
  · unfold get_node_details
    rw [queryResult_congr a b hcase]

/-- Claim C7, witness: the approved record `("0xa", "Alpha", "DE")` is
returned for the upper-cased request path `0xA`, and the run on `0xA`
equals the run on `0xa`. -/
theorem get_node_details_first_approved_match_witness :
    (get_node_details "0xA" ⟨true, true, true,
        [⟨"0xa", "Alpha", "DE", "approved"⟩]⟩).resp
      = ⟨200, "Alpha", "DE"⟩ ∧
    get_node_details "0xA"
        ⟨true, true, true, [⟨"0xa", "Alpha", "DE", "approved"⟩]⟩
      = get_node_details "0xa"
        ⟨true, true, true, [⟨"0xa", "Alpha", "DE", "approved"⟩]⟩ :=
  get_node_details_first_approved_match
    ⟨true, true, true, [⟨"0xa", "Alpha", "DE", "approved"⟩]⟩ "0xA" "0xa"
    ⟨"0xa", "Alpha", "DE", "approved"⟩ rfl rfl rfl (by decide) (by decide)

/-- Claim C8: a stored record whose status is anything other than
`approved` is invisible to `get_node_details` — removing it from the
table leaves the handler's behaviour unchanged on every address and
every fault pattern, so such a record never contributes its
`friendly_name`/`country`. -/
theorem get_node_details_nonapproved_erasable (w : DbWorld) (a : String)
    (r : NodeRecord) (pre post : List NodeRecord)
    (hw : w.records = pre ++ r :: post) (hs : r.status ≠ "approved") :
    get_node_details a ⟨w.connectOk, w.executeOk, w.fetchOk, pre ++ post⟩
      = get_node_details a w := by
  have hr : approvedMatch a r = false := by
    unfold approvedMatch
    simp [hs]
  have hq : queryResult a (pre ++ post) = queryResult a w.records := by
    rw [hw]
    unfold queryResult
    simp [List.filter_append, List.filter_cons, hr]
  unfold get_node_details
  dsimp only
  rw [hq]

/-- Claim C8, witness: deleting the sole, pending, record leaves the
handler's run unchanged. -/
theorem get_node_details_nonapproved_erasable_witness :
    get_node_details "0xa" ⟨true, true, true, []⟩
      = get_node_details "0xa"
        ⟨true, true, true, [⟨"0xa", "Alpha", "DE", "pending"⟩]⟩ :=
  get_node_details_nonapproved_erasable
    ⟨true, true, true, [⟨"0xa", "Alpha", "DE", "pending"⟩]⟩ "0xa"
    ⟨"0xa", "Alpha", "DE", "pending"⟩ [] [] rfl (by decide)

/-- Claim C9: the status filter is an exact, case-sensitive comparison
while the address match is case-insensitive: a record whose status
differs from `approved` only in letter casing is treated as absent and
the placeholder is returned, even when its address matches the request
path. -/
theorem get_node_details_status_case_sensitive (a : String)
    (r : NodeRecord) (w : DbWorld) (hw : w.records = [r])
    (haddr : lowerEq r.address a = true)
    (hcase : strLower r.status = "approved")
    (hne : r.status ≠ "approved") :
    (get_node_details a w).resp = placeholderResp := by
  apply resp_of_no_approved_match
  intro s hs
  rw [hw] at hs
  simp only [List.mem_singleton] at hs
  subst hs
  unfold approvedMatch
  simp [hne]

/-- Claim C9, witness: a record with status `Approved` and a
case-insensitively matching address yields the placeholder. -/
theorem get_node_details_status_case_sensitive_witness :
    (get_node_details "0xA" ⟨true, true, true,
        [⟨"0xa", "Alpha", "DE", "Approved"⟩]⟩).resp = placeholderResp :=
  get_node_details_status_case_sensitive "0xA"
    ⟨"0xa", "Alpha", "DE", "Approved"⟩
    ⟨true, true, true, [⟨"0xa", "Alpha", "DE", "Approved"⟩]⟩
    rfl (by decide) (by decide) (by decide)

/-- Claim C10: every falsy `eth_address` JSON value — the empty string,
null, false, or 0 — is rejected with the same 400
`{"error": "eth_address is required"}` response as an absent field. -/
theorem verify_subscription_falsy_values_400
    (data : List (String × JVal)) (call : JVal → CallOutcome) (m : String)
    (v : JVal) (h1 : data.lookup "eth_address" = some v)
    (h2 : v = .str "" ∨ v = .null ∨ v = .bool false ∨ v = .num 0) :
    verify_subscription (some data) call m
      = ⟨400, .error "eth_address is required", none⟩ := by
  have ht : v.truthy = false := by
    rcases h2 with h | h | h | h <;> subst h <;> rfl
  unfold verify_subscription
  simp [h1, ht]

/-- Claim C10, witness: the number 0 submitted as `eth_address` gets the
400 response. -/
theorem verify_subscription_falsy_values_400_witness :
    verify_subscription (some [("eth_address", JVal.num 0)])
        (fun _ => CallOutcome.ok true) "boom"
      = ⟨400, .error "eth_address is required", none⟩ :=
  verify_subscription_falsy_values_400 [("eth_address", JVal.num 0)]
    (fun _ => CallOutcome.ok true) "boom" (JVal.num 0) (by decide)
    (Or.inr (Or.inr (Or.inr rfl)))

end BlockDvpn
